import Mathlib

/-!
Shallow embedding of the internal-transfers service core.

The persistent store (PostgreSQL) is modelled as an explicit state value
threaded through the service operations: an association list of account
rows (id, balance), the append-only list of transaction records and the
append-only list of audit rows.  Monetary amounts (Go `float64`, declared
`DECIMAL` in the schema) are modelled as exact rationals `ℚ`.  Fallible
storage operations are modelled by explicit fault flags: a flag set means
the corresponding SQL statement fails with a driver error; the service
code paths are translated statement by statement from
`internal/service` (transaction service and account service) and
`internal/repository`.
-/

namespace InternalTransfers

/-- Account row as stored in the `accounts` table (timestamps omitted:
no service logic reads them). Source: `internal/models/models.go`. -/
structure Account where
  id : String
  balance : ℚ
deriving DecidableEq

/-- Transaction record, `internal/models/models.go`. -/
structure Transaction where
  id : String
  sourceAccountID : String
  destinationAccountID : String
  amount : ℚ
deriving DecidableEq

/-- Structured account snapshot stored in audit rows,
`models.AccountBalanceSnapshot`. -/
structure AccountBalanceSnapshot where
  id : String
  balance : ℚ
deriving DecidableEq

/-- The JSON payloads an audit row carries (`old_value` / `new_value`). -/
inductive AuditValue where
  | absent
  | account (snap : AccountBalanceSnapshot)
  | txn (id sourceAccountID destinationAccountID : String) (amount : ℚ)
deriving DecidableEq

/-- Audit row, `internal/models/models.go`. -/
structure AuditLog where
  entityType : String
  entityID : String
  action : String
  oldValue : AuditValue
  newValue : AuditValue
deriving DecidableEq

/-- Request body for POST /transactions, `models.CreateTransactionRequest`. -/
structure CreateTransactionRequest where
  sourceAccountID : String
  destinationAccountID : String
  amount : ℚ
deriving DecidableEq

/-- Request body for POST /accounts, `models.CreateAccountRequest`. -/
structure CreateAccountRequest where
  id : String
  initialBalance : ℚ
deriving DecidableEq

/-- Error taxonomy of `internal/errors/errors.go`. `wrapped` models
`fmt.Errorf("...: %w", err)`, which keeps `errors.Is` matching;
`transactionError` models `TransactionError{Operation, Cause}` where the
cause is an underlying driver failure. -/
inductive Err where
  | validationError (field message : String)
  | sameAccount
  | invalidAmount
  | insufficientBalance
  | invalidAccountID
  | negativeBalance
  | accountAlreadyExists
  | accountNotFound
  | wrapped (context : String) (e : Err)
  | transactionError (operation : String)
deriving DecidableEq

/-- The `errors.IsNotFound` predicate: `errors.Is(err, ErrAccountNotFound)`,
which unwraps `fmt.Errorf` wrappers. -/
def Err.isNotFound : Err → Bool
  | .accountNotFound => true
  | .wrapped _ e => e.isNotFound
  | _ => false

/-- State of the durable store: the `accounts`, `transactions` and
`audit_logs` tables. -/
structure DBState where
  accounts : List (String × ℚ)
  transactions : List Transaction
  audits : List AuditLog
deriving DecidableEq

/-- Lookup of an account row by primary key: the semantics of
`SELECT ... FROM accounts WHERE id = $1` (with or without FOR UPDATE),
`internal/repository/account_repository.go`. -/
def lookupAccount (accounts : List (String × ℚ)) (id : String) : Option ℚ :=
  match accounts with
  | [] => none
  | p :: rest => if p.1 = id then some p.2 else lookupAccount rest id

/-- Semantics of `UPDATE accounts SET balance = $1 WHERE id = $2`
(`UpdateAccountBalance`): rewrite the balance of the row with the given
primary key. -/
def updateBalance (accounts : List (String × ℚ)) (id : String) (b : ℚ) :
    List (String × ℚ) :=
  accounts.map (fun p => if p.1 = id then (p.1, b) else p)

/-- Fault flags for the fallible storage statements executed by
`Transfer`: a set flag means that statement fails with a driver error. -/
structure Faults where
  beginTx : Bool
  getSource : Bool
  getDest : Bool
  updateSource : Bool
  updateDest : Bool
  createTxn : Bool
  auditSource : Bool
  auditDest : Bool
  auditTxn : Bool
  commit : Bool
deriving DecidableEq

/-- The fault assignment in which every storage statement succeeds. -/
def noFaults : Faults :=
  ⟨false, false, false, false, false, false, false, false, false, false⟩

/-- Fault flags for `CreateAccount`: failure of the INSERT (other than a
duplicate key) and failure of the audit INSERT. -/
structure AccountFaults where
  createFail : Bool
  auditFail : Bool
deriving DecidableEq

/-- Translation of `validateTransferRequest`
(`internal/service/transaction_service.go`): the four checks in source
order. -/
def validateTransferRequest (req : CreateTransactionRequest) : Option Err :=
  if req.sourceAccountID = "" then
    some (.validationError "source_account_id" "must be non-empty")
  else if req.destinationAccountID = "" then
    some (.validationError "destination_account_id" "must be non-empty")
  else if req.sourceAccountID = req.destinationAccountID then
    some .sameAccount
  else if req.amount ≤ 0 then
    some .invalidAmount
  else
    none

/-- Translation of `createTransferAuditLog`: three INSERTs into
`audit_logs` in order (source debit, destination credit, transaction),
each aborting the helper on failure; returns the error (if any) together
with the audit rows already inserted inside the open transaction. -/
def createTransferAuditLog (audits : List AuditLog) (txn : Transaction)
    (oldSourceBalance newSourceBalance oldDestinationBalance newDestinationBalance : ℚ)
    (f : Faults) : Option Err × List AuditLog :=
  if f.auditSource then
    (some (.wrapped "failed to create source account audit log" (.transactionError "insert")), audits)
  else
    let audits1 := audits ++ [⟨"account", txn.sourceAccountID, "debit",
      .account ⟨txn.sourceAccountID, oldSourceBalance⟩,
      .account ⟨txn.sourceAccountID, newSourceBalance⟩⟩]
    if f.auditDest then
      (some (.wrapped "failed to create destination account audit log" (.transactionError "insert")), audits1)
    else
      let audits2 := audits1 ++ [⟨"account", txn.destinationAccountID, "credit",
        .account ⟨txn.destinationAccountID, oldDestinationBalance⟩,
        .account ⟨txn.destinationAccountID, newDestinationBalance⟩⟩]
      if f.auditTxn then
        (some (.wrapped "failed to create transaction audit log" (.transactionError "insert")), audits2)
      else
        (none, audits2 ++ [⟨"transaction", txn.id, "transfer",
          .absent, .txn txn.id txn.sourceAccountID txn.destinationAccountID txn.amount⟩])

instance {ε α : Type} [DecidableEq ε] [DecidableEq α] : DecidableEq (Except ε α) := fun
  | .error e, .error e2 =>
    if h : e = e2 then .isTrue (by rw [h]) else .isFalse (by intro hh; injection hh; contradiction)
  | .error _, .ok _ => .isFalse (by intro h; injection h)
  | .ok _, .error _ => .isFalse (by intro h; injection h)
  | .ok a, .ok a2 =>
    if h : a = a2 then .isTrue (by rw [h]) else .isFalse (by intro hh; injection hh; contradiction)

/-- Result of one call to `Transfer`: the returned value or error, the
store after the call (rolled back or committed), and the sequence of
account ids on which `SELECT ... FOR UPDATE` was executed, in execution
order. -/
structure TransferOutcome where
  result : Except Err Transaction
  state : DBState
  lockTrace : List String
deriving DecidableEq

/-- Translation of `TransactionServiceImpl.Transfer`
(`internal/service/transaction_service.go`), statement by statement:
validation; BEGIN; locked read of the source row, then of the
destination row, each in request order; balance check; the two UPDATEs;
the transaction INSERT (`genId` stands for the generated UUID); the
best-effort audit inserts whose error is logged and dropped; COMMIT.
Every error path returns the original store (the deferred Rollback).
The zero-rows-affected branch of `UpdateAccountBalance` is unreachable
here because each updated row was just read under lock in the same
transaction, so it is not modelled as a separate error. -/
def Transfer (st : DBState) (req : CreateTransactionRequest) (genId : String)
    (f : Faults) : TransferOutcome :=
  match validateTransferRequest req with
  | some e => ⟨.error e, st, []⟩
  | none =>
    if f.beginTx then ⟨.error (.transactionError "begin"), st, []⟩
    else
      if f.getSource then
        ⟨.error (.transactionError "get source account"), st, [req.sourceAccountID]⟩
      else
        match lookupAccount st.accounts req.sourceAccountID with
        | none =>
          ⟨.error (.wrapped "source account" .accountNotFound), st, [req.sourceAccountID]⟩
        | some sourceBalance =>
          if f.getDest then
            ⟨.error (.transactionError "get destination account"), st,
              [req.sourceAccountID, req.destinationAccountID]⟩
          else
            match lookupAccount st.accounts req.destinationAccountID with
            | none =>
              ⟨.error (.wrapped "destination account" .accountNotFound), st,
                [req.sourceAccountID, req.destinationAccountID]⟩
            | some destinationBalance =>
              if sourceBalance < req.amount then
                ⟨.error .insufficientBalance, st,
                  [req.sourceAccountID, req.destinationAccountID]⟩
              else
                let newSourceBalance := sourceBalance - req.amount
                let newDestinationBalance := destinationBalance + req.amount
                if f.updateSource then
                  ⟨.error (.transactionError "update source account balance"), st,
                    [req.sourceAccountID, req.destinationAccountID]⟩
                else
                  let accounts1 := updateBalance st.accounts req.sourceAccountID newSourceBalance
                  if f.updateDest then
                    ⟨.error (.transactionError "update destination account balance"), st,
                      [req.sourceAccountID, req.destinationAccountID]⟩
                  else
                    let accounts2 := updateBalance accounts1 req.destinationAccountID newDestinationBalance
                    let txn : Transaction :=
                      ⟨genId, req.sourceAccountID, req.destinationAccountID, req.amount⟩
                    if f.createTxn then
                      ⟨.error (.transactionError "create transaction record"), st,
                        [req.sourceAccountID, req.destinationAccountID]⟩
                    else
                      let audits2 := (createTransferAuditLog st.audits txn sourceBalance
                        newSourceBalance destinationBalance newDestinationBalance f).2
                      if f.commit then
                        ⟨.error (.transactionError "commit"), st,
                          [req.sourceAccountID, req.destinationAccountID]⟩
                      else
                        ⟨.ok txn, ⟨accounts2, st.transactions ++ [txn], audits2⟩,
                          [req.sourceAccountID, req.destinationAccountID]⟩

/-- Translation of `validateCreateRequest`
(`internal/service/account_service.go`). -/
def validateCreateRequest (req : CreateAccountRequest) : Option Err :=
  if req.id = "" then some .invalidAccountID
  else if req.initialBalance < 0 then some .negativeBalance
  else none

/-- Audit row written by `createAccoutAuditLog` on account creation. -/
def createAccoutAuditLog (account : Account) : AuditLog :=
  ⟨"ACCOUNT", account.id, "CREATE", .absent, .account ⟨account.id, account.balance⟩⟩

/-- Translation of `AccountServiceImpl.CreateAccount`: validation;
INSERT into `accounts` (duplicate key → `ErrAccountAlreadyExists`, any
other failure modelled by `createFail`); then the best-effort CREATE
audit row whose failure is logged and dropped. Returns the result and
the store after the call. -/
def CreateAccount (st : DBState) (req : CreateAccountRequest)
    (f : AccountFaults) : Except Err Account × DBState :=
  match validateCreateRequest req with
  | some e => (.error e, st)
  | none =>
    if (lookupAccount st.accounts req.id).isSome then
      (.error .accountAlreadyExists, st)
    else if f.createFail then
      (.error (.wrapped "failed to create account" (.transactionError "insert")), st)
    else
      let account : Account := ⟨req.id, req.initialBalance⟩
      let st1 : DBState :=
        ⟨st.accounts ++ [(req.id, req.initialBalance)], st.transactions, st.audits⟩
      if f.auditFail then (.ok account, st1)
      else (.ok account, ⟨st1.accounts, st1.transactions, st1.audits ++ [createAccoutAuditLog account]⟩)

/-- Translation of `AccountServiceImpl.GetAccount`: empty id →
`ErrInvalidAccountID`; missing row → `ErrAccountNotFound`; otherwise the
stored row. -/
def GetAccount (st : DBState) (id : String) : Except Err Account :=
  if id = "" then .error .invalidAccountID
  else
    match lookupAccount st.accounts id with
    | none => .error .accountNotFound
    | some b => .ok ⟨id, b⟩

/-- The fault assignment equal to `f` on every primary-path statement but
with all three audit-insert faults cleared; used to state that audit
failures cannot influence the primary outcome of `Transfer`. -/
def clearAuditFaults : Faults → Faults
  | ⟨b, g1, g2, u1, u2, ct, _, _, _, cm⟩ => ⟨b, g1, g2, u1, u2, ct, false, false, false, cm⟩

/-! Helper lemmas about the store model. -/

theorem lookupAccount_updateBalance_self (accounts : List (String × ℚ)) (id : String) (b : ℚ) :
    lookupAccount (updateBalance accounts id b) id = (lookupAccount accounts id).map (fun _ => b) := by
  induction accounts with
  | nil => rfl
  | cons p rest ih =>
    simp only [updateBalance, List.map_cons] at *
    by_cases hp : p.1 = id
    · simp [lookupAccount, hp]
    · simp [lookupAccount, hp, ih]

theorem lookupAccount_updateBalance_ne (accounts : List (String × ℚ)) (id id2 : String) (b : ℚ)
    (h : id2 ≠ id) :
    lookupAccount (updateBalance accounts id b) id2 = lookupAccount accounts id2 := by
  induction accounts with
  | nil => rfl
  | cons p rest ih =>
    simp only [updateBalance, List.map_cons] at *
    by_cases hp : p.1 = id
    · simp [lookupAccount, hp, Ne.symm h]
      exact ih
    · by_cases hq : p.1 = id2
      · simp [lookupAccount, hp, hq, h]
      · simp [lookupAccount, hp, hq]
        exact ih

theorem lookupAccount_append (accounts accounts2 : List (String × ℚ)) (id : String)
    (h : lookupAccount accounts id = none) :
    lookupAccount (accounts ++ accounts2) id = lookupAccount accounts2 id := by
  induction accounts with
  | nil => rfl
  | cons p rest ih =>
    simp only [lookupAccount, List.cons_append] at *
    by_cases hp : p.1 = id
    · simp [hp] at h
    · simp [hp] at *
      exact ih h

theorem lookupAccount_append_single (accounts : List (String × ℚ)) (id : String) (b : ℚ)
    (h : lookupAccount accounts id = none) :
    lookupAccount (accounts ++ [(id, b)]) id = some b := by
  rw [lookupAccount_append _ _ _ h]
  simp [lookupAccount]

theorem validateTransferRequest_eq_none {req : CreateTransactionRequest} :
    validateTransferRequest req = none ↔
      req.sourceAccountID ≠ "" ∧ req.destinationAccountID ≠ "" ∧
      req.sourceAccountID ≠ req.destinationAccountID ∧ 0 < req.amount := by
  unfold validateTransferRequest
  split_ifs with h1 h2 h3 h4 <;> simp_all [not_le]

/-- Inversion for error returns of `Transfer`: every error path returns
the store it started from (the deferred Rollback). -/
theorem Transfer_error_state {st : DBState} {req : CreateTransactionRequest} {genId : String}
    {f : Faults} {e : Err} {st2 : DBState} {tr : List String}
    (h : Transfer st req genId f = ⟨.error e, st2, tr⟩) : st2 = st := by
  unfold Transfer at h
  repeat' split at h
  all_goals simp_all

/-- Inversion for successful returns of `Transfer`: validation passed,
both rows were found, the balance check passed, and the committed store
holds the two updated balances and the appended transaction record. -/
theorem Transfer_ok_inv {st : DBState} {req : CreateTransactionRequest} {genId : String}
    {f : Faults} {txn : Transaction} {st2 : DBState} {tr : List String}
    (h : Transfer st req genId f = ⟨.ok txn, st2, tr⟩) :
    validateTransferRequest req = none ∧
    ∃ s d : ℚ, lookupAccount st.accounts req.sourceAccountID = some s ∧
      lookupAccount st.accounts req.destinationAccountID = some d ∧
      ¬ s < req.amount ∧
      txn = ⟨genId, req.sourceAccountID, req.destinationAccountID, req.amount⟩ ∧
      st2.accounts = updateBalance (updateBalance st.accounts req.sourceAccountID (s - req.amount))
        req.destinationAccountID (d + req.amount) ∧
      st2.transactions = st.transactions ++ [txn] := by
  unfold Transfer at h
  repeat' split at h
  all_goals simp_all
  obtain ⟨h1, h2, h3⟩ := h
  subst h1
  subst h2
  simp

/-- Claim C1: the claim states that the two exclusive locked reads are
acquired in lexicographic order of the account identifiers, independent
of transfer direction. The code instead acquires them in request order
(source first, then destination): for the request source `"b"`,
destination `"a"`, which passes pre-validation and succeeds, the lock
trace is `["b", "a"]` although `"a" < "b"` — the lexicographically
greater identifier is locked first, refuting the claimed discipline. -/
theorem claim_C1_lock_order_is_request_order_not_lexicographic :
    ("a" : String) < "b" ∧
    validateTransferRequest ⟨"b", "a", 1⟩ = none ∧
    (Transfer ⟨[("a", 5), ("b", 5)], [], []⟩ ⟨"b", "a", 1⟩ "t1" noFaults).lockTrace = ["b", "a"] ∧
    (Transfer ⟨[("a", 5), ("b", 5)], [], []⟩ ⟨"b", "a", 1⟩ "t1" noFaults).result =
      .ok ⟨"t1", "b", "a", 1⟩ := by
  refine ⟨by simp [String.lt_iff]; decide, by decide, ?_, ?_⟩ <;>
    · simp [Transfer, validateTransferRequest, lookupAccount, noFaults]
      norm_num

/-- Claim C2: every successful transfer leaves the source balance at
exactly `s - amount`, the destination at exactly `d + amount`, preserves
the sum of the two balances, and appends a transaction record whose
source, destination and amount equal the request's values. -/
theorem claim_C2_successful_transfer_exactness
    {st : DBState} {req : CreateTransactionRequest} {genId : String}
    {f : Faults} {txn : Transaction} {st2 : DBState} {tr : List String} {s d : ℚ}
    (h : Transfer st req genId f = ⟨.ok txn, st2, tr⟩)
    (hs : lookupAccount st.accounts req.sourceAccountID = some s)
    (hd : lookupAccount st.accounts req.destinationAccountID = some d) :
    lookupAccount st2.accounts req.sourceAccountID = some (s - req.amount) ∧
    lookupAccount st2.accounts req.destinationAccountID = some (d + req.amount) ∧
    (s - req.amount) + (d + req.amount) = s + d ∧
    txn ∈ st2.transactions ∧
    txn.sourceAccountID = req.sourceAccountID ∧
    txn.destinationAccountID = req.destinationAccountID ∧
    txn.amount = req.amount := by
  obtain ⟨hv, s0, d0, hs0, hd0, hlt, htxn, hacc, htr⟩ := Transfer_ok_inv h
  rw [hs] at hs0
  rw [hd] at hd0
  obtain rfl : s = s0 := Option.some.inj hs0
  obtain rfl : d = d0 := Option.some.inj hd0
  have hne : req.sourceAccountID ≠ req.destinationAccountID :=
    (validateTransferRequest_eq_none.mp hv).2.2.1
  refine ⟨?_, ?_, by ring, ?_, ?_, ?_, ?_⟩
  · rw [hacc, lookupAccount_updateBalance_ne _ _ _ _ hne,
      lookupAccount_updateBalance_self, hs]
    rfl
  · rw [hacc, lookupAccount_updateBalance_self,
      lookupAccount_updateBalance_ne _ _ _ _ (Ne.symm hne), hd]
    rfl
  · rw [htr]; simp
  · rw [htxn]
  · rw [htxn]
  · rw [htxn]

/-- Witness for C2: the spec's Scenario 1 — balances 1000 and 500,
transfer of 250 — evaluated concretely. -/
theorem claim_C2_witness :
    lookupAccount [("acc001", (750 : ℚ)), ("acc002", 750)] "acc001" = some (1000 - 250) ∧
    lookupAccount [("acc001", (750 : ℚ)), ("acc002", 750)] "acc002" = some (500 + 250) ∧
    (1000 - 250 : ℚ) + (500 + 250) = 1000 + 500 ∧
    (⟨"t1", "acc001", "acc002", 250⟩ : Transaction) ∈
      [(⟨"t1", "acc001", "acc002", 250⟩ : Transaction)] ∧
    ("acc001" : String) = "acc001" ∧
    ("acc002" : String) = "acc002" ∧
    (250 : ℚ) = 250 := by
  have h : Transfer ⟨[("acc001", 1000), ("acc002", 500)], [], []⟩
      ⟨"acc001", "acc002", 250⟩ "t1" noFaults =
      ⟨.ok ⟨"t1", "acc001", "acc002", 250⟩,
       ⟨[("acc001", 750), ("acc002", 750)],
        [⟨"t1", "acc001", "acc002", 250⟩],
        [⟨"account", "acc001", "debit", .account ⟨"acc001", 1000⟩, .account ⟨"acc001", 750⟩⟩,
         ⟨"account", "acc002", "credit", .account ⟨"acc002", 500⟩, .account ⟨"acc002", 750⟩⟩,
         ⟨"transaction", "t1", "transfer", .absent, .txn "t1" "acc001" "acc002" 250⟩]⟩,
       ["acc001", "acc002"]⟩ := by
    simp [Transfer, validateTransferRequest, lookupAccount, updateBalance,
      createTransferAuditLog, noFaults]
    norm_num
  exact claim_C2_successful_transfer_exactness (s := 1000) (d := 500) h
    (by simp [lookupAccount]) (by simp [lookupAccount])

/-- Claim C3: a transfer that returns an error of any kind leaves the
store — account balances, transaction records and audit rows — exactly
as it was before the call. -/
theorem claim_C3_no_side_effect_on_error
    {st : DBState} {req : CreateTransactionRequest} {genId : String}
    {f : Faults} {e : Err} {st2 : DBState} {tr : List String}
    (h : Transfer st req genId f = ⟨.error e, st2, tr⟩) :
    st2 = st :=
  Transfer_error_state h

/-- Witness for C3: the spec's Scenario 2 — balances 750 and 750,
transfer of 10000 fails with insufficient balance and the store is
returned unchanged. -/
theorem claim_C3_witness :
    Transfer ⟨[("acc001", (750 : ℚ)), ("acc002", 750)], [], []⟩
        ⟨"acc001", "acc002", 10000⟩ "t1" noFaults =
      ⟨.error .insufficientBalance, ⟨[("acc001", 750), ("acc002", 750)], [], []⟩,
       ["acc001", "acc002"]⟩ ∧
    (⟨[("acc001", (750 : ℚ)), ("acc002", 750)], [], []⟩ : DBState) =
      ⟨[("acc001", 750), ("acc002", 750)], [], []⟩ := by
  have h : Transfer ⟨[("acc001", 750), ("acc002", 750)], [], []⟩
      ⟨"acc001", "acc002", 10000⟩ "t1" noFaults =
      ⟨.error .insufficientBalance, ⟨[("acc001", 750), ("acc002", 750)], [], []⟩,
       ["acc001", "acc002"]⟩ := by
    simp [Transfer, validateTransferRequest, lookupAccount, noFaults]
    norm_num
  exact ⟨h, claim_C3_no_side_effect_on_error h⟩

/-- Claim C4: with pre-validation passed, both accounts present, and the
transaction-opening and locked-read statements succeeding, the call
fails with `InsufficientBalance` exactly when the source balance is
strictly below the amount, and in that case the store is unchanged. -/
theorem claim_C4_insufficient_balance_iff
    {st : DBState} {req : CreateTransactionRequest} {genId : String} {s d : ℚ}
    (f : Faults)
    (hv : validateTransferRequest req = none)
    (hs : lookupAccount st.accounts req.sourceAccountID = some s)
    (hd : lookupAccount st.accounts req.destinationAccountID = some d)
    (hb : f.beginTx = false) (hg1 : f.getSource = false) (hg2 : f.getDest = false) :
    ((Transfer st req genId f).result = .error .insufficientBalance ↔ s < req.amount) ∧
    (s < req.amount → (Transfer st req genId f).state = st) := by
  simp only [Transfer, hv, hb, hg1, hg2, hs, hd, Bool.false_eq_true, if_false]
  by_cases hcase : s < req.amount
  · simp [hcase]
  · rw [if_neg hcase]
    refine ⟨⟨fun hres => ?_, fun hlt => absurd hlt hcase⟩, fun hlt => absurd hlt hcase⟩
    exfalso
    revert hres
    repeat' split
    all_goals simp

/-- Witness for C4: Scenario 2's input — balances 750 and 750, amount
10000 — instantiates the equivalence. -/
theorem claim_C4_witness :
    ((Transfer ⟨[("acc001", (750 : ℚ)), ("acc002", 750)], [], []⟩
        ⟨"acc001", "acc002", 10000⟩ "t1" noFaults).result =
      .error .insufficientBalance ↔ (750 : ℚ) < 10000) ∧
    ((750 : ℚ) < 10000 →
      (Transfer ⟨[("acc001", (750 : ℚ)), ("acc002", 750)], [], []⟩
        ⟨"acc001", "acc002", 10000⟩ "t1" noFaults).state =
        ⟨[("acc001", 750), ("acc002", 750)], [], []⟩) :=
  claim_C4_insufficient_balance_iff (d := 750) noFaults (by decide)
    (by simp [lookupAccount]) (by simp [lookupAccount]) rfl rfl rfl

/-- Claim C5: the four pre-validation failures return before any unit of
work is opened and before any storage access: the outcome is the
validation error with the store untouched and an empty lock trace, for
every store and every fault assignment (so independent of storage). -/
theorem claim_C5_prevalidation_before_storage
    (st : DBState) (req : CreateTransactionRequest) (genId : String) (f : Faults) :
    (req.sourceAccountID = "" →
      Transfer st req genId f =
        ⟨.error (.validationError "source_account_id" "must be non-empty"), st, []⟩) ∧
    (req.sourceAccountID ≠ "" → req.destinationAccountID = "" →
      Transfer st req genId f =
        ⟨.error (.validationError "destination_account_id" "must be non-empty"), st, []⟩) ∧
    (req.sourceAccountID ≠ "" → req.destinationAccountID ≠ "" →
      req.sourceAccountID = req.destinationAccountID →
      Transfer st req genId f = ⟨.error .sameAccount, st, []⟩) ∧
    (req.sourceAccountID ≠ "" → req.destinationAccountID ≠ "" →
      req.sourceAccountID ≠ req.destinationAccountID → req.amount ≤ 0 →
      Transfer st req genId f = ⟨.error .invalidAmount, st, []⟩) := by
  refine ⟨fun h1 => ?_, fun h1 h2 => ?_, fun h1 h2 h3 => ?_, fun h1 h2 h3 h4 => ?_⟩
  · simp [Transfer, validateTransferRequest, h1]
  · simp [Transfer, validateTransferRequest, h1, h2]
  · simp [Transfer, validateTransferRequest, h1, h2, h3]
  · simp [Transfer, validateTransferRequest, h1, h2, h3, h4]

/-- Witness for C5: the spec's Scenario 3 — a transfer from `acc001` to
itself fails with `SameAccount`, store untouched, no lock taken. -/
theorem claim_C5_witness :
    Transfer ⟨[("acc001", (750 : ℚ))], [], []⟩ ⟨"acc001", "acc001", 100⟩ "t1" noFaults =
      ⟨.error .sameAccount, ⟨[("acc001", 750)], [], []⟩, []⟩ :=
  (claim_C5_prevalidation_before_storage ⟨[("acc001", 750)], [], []⟩
    ⟨"acc001", "acc001", 100⟩ "t1" noFaults).2.2.1 (by decide) (by decide) rfl

/-- Claim C6: audit-write failure never fails the enclosing operation.
For `Transfer`, the returned result, the committed balances and the
committed transaction records are the same under any audit-fault
assignment as with the audit faults cleared — so a failing audit insert
still lets the transfer commit and return its transaction. For
`CreateAccount`, a valid fresh creation returns the created account for
every audit-fault flag. -/
theorem claim_C6_audit_failure_is_best_effort
    (st : DBState) (req : CreateTransactionRequest) (genId : String) (f : Faults) :
    ((Transfer st req genId f).result = (Transfer st req genId (clearAuditFaults f)).result ∧
     (Transfer st req genId f).state.accounts =
       (Transfer st req genId (clearAuditFaults f)).state.accounts ∧
     (Transfer st req genId f).state.transactions =
       (Transfer st req genId (clearAuditFaults f)).state.transactions) ∧
    (∀ (creq : CreateAccountRequest) (af : AccountFaults), af.createFail = false →
      validateCreateRequest creq = none → lookupAccount st.accounts creq.id = none →
      (CreateAccount st creq af).1 = .ok ⟨creq.id, creq.initialBalance⟩) := by
  constructor
  · obtain ⟨b, g1, g2, u1, u2, ct, a1, a2, a3, cm⟩ := f
    simp only [clearAuditFaults]
    unfold Transfer
    repeat' split
    all_goals simp_all
  · intro creq af hcf hv hnone
    simp only [CreateAccount, hv, hnone, hcf, Option.isSome_none, Bool.false_eq_true, if_false]
    split <;> rfl

/-- Witness for C6: all three transfer audit inserts failing, and an
account creation whose audit insert fails, evaluated concretely. -/
theorem claim_C6_witness :
    ((Transfer ⟨[("acc001", (1000 : ℚ)), ("acc002", 500)], [], []⟩ ⟨"acc001", "acc002", 250⟩ "t1"
        ⟨false, false, false, false, false, false, true, true, true, false⟩).result =
      (Transfer ⟨[("acc001", (1000 : ℚ)), ("acc002", 500)], [], []⟩ ⟨"acc001", "acc002", 250⟩ "t1"
        (clearAuditFaults ⟨false, false, false, false, false, false, true, true, true, false⟩)).result ∧
     (Transfer ⟨[("acc001", (1000 : ℚ)), ("acc002", 500)], [], []⟩ ⟨"acc001", "acc002", 250⟩ "t1"
        ⟨false, false, false, false, false, false, true, true, true, false⟩).state.accounts =
      (Transfer ⟨[("acc001", (1000 : ℚ)), ("acc002", 500)], [], []⟩ ⟨"acc001", "acc002", 250⟩ "t1"
        (clearAuditFaults ⟨false, false, false, false, false, false, true, true, true, false⟩)).state.accounts ∧
     (Transfer ⟨[("acc001", (1000 : ℚ)), ("acc002", 500)], [], []⟩ ⟨"acc001", "acc002", 250⟩ "t1"
        ⟨false, false, false, false, false, false, true, true, true, false⟩).state.transactions =
      (Transfer ⟨[("acc001", (1000 : ℚ)), ("acc002", 500)], [], []⟩ ⟨"acc001", "acc002", 250⟩ "t1"
        (clearAuditFaults ⟨false, false, false, false, false, false, true, true, true, false⟩)).state.transactions) ∧
    (CreateAccount ⟨[("acc001", (1000 : ℚ)), ("acc002", 500)], [], []⟩ ⟨"acc003", 25⟩
      ⟨false, true⟩).1 = .ok ⟨"acc003", 25⟩ := by
  obtain ⟨h1, h2⟩ := claim_C6_audit_failure_is_best_effort
    ⟨[("acc001", (1000 : ℚ)), ("acc002", 500)], [], []⟩ ⟨"acc001", "acc002", 250⟩ "t1"
    ⟨false, false, false, false, false, false, true, true, true, false⟩
  exact ⟨h1, h2 ⟨"acc003", 25⟩ ⟨false, true⟩ rfl (by decide) (by simp [lookupAccount])⟩

/-- Claim C7: `CreateAccount` rejects an empty id and a negative initial
balance, rejects a taken id with `AlreadyExists`, and otherwise creates
and returns the account; creating the same id twice yields
`AlreadyExists` on the second call and the stored balance is the first
call's. -/
theorem claim_C7_create_account
    (st : DBState) (req req2 : CreateAccountRequest) (f f2 : AccountFaults)
    (hf : f.createFail = false) :
    (req.id = "" → (CreateAccount st req f).1 = .error .invalidAccountID) ∧
    (req.id ≠ "" → req.initialBalance < 0 → (CreateAccount st req f).1 = .error .negativeBalance) ∧
    (validateCreateRequest req = none → (lookupAccount st.accounts req.id).isSome →
      (CreateAccount st req f).1 = .error .accountAlreadyExists) ∧
    (validateCreateRequest req = none → lookupAccount st.accounts req.id = none →
      req2.id = req.id → validateCreateRequest req2 = none →
      (CreateAccount st req f).1 = .ok ⟨req.id, req.initialBalance⟩ ∧
      (CreateAccount (CreateAccount st req f).2 req2 f2).1 = .error .accountAlreadyExists ∧
      lookupAccount (CreateAccount st req f).2.accounts req.id = some req.initialBalance) := by
  refine ⟨fun h1 => ?_, fun h1 h2 => ?_, fun hv hsome => ?_, fun hv hnone hid hv2 => ?_⟩
  · simp [CreateAccount, validateCreateRequest, h1]
  · simp [CreateAccount, validateCreateRequest, h1, h2]
  · simp [CreateAccount, hv, hsome]
  · have hacc2 : (CreateAccount st req f).2.accounts =
        st.accounts ++ [(req.id, req.initialBalance)] := by
      simp only [CreateAccount, hv, hnone, hf, Option.isSome_none, Bool.false_eq_true, if_false]
      split <;> rfl
    have hlook2 : lookupAccount (CreateAccount st req f).2.accounts req.id =
        some req.initialBalance := by
      rw [hacc2]
      exact lookupAccount_append_single _ _ _ hnone
    refine ⟨?_, ?_, hlook2⟩
    · simp only [CreateAccount, hv, hnone, hf, Option.isSome_none, Bool.false_eq_true, if_false]
      split <;> rfl
    · generalize hst2 : (CreateAccount st req f).2 = st2 at hlook2
      simp only [CreateAccount, hv2, hid, hlook2, Option.isSome_some, if_true]

/-- Witness for C7: creating id `X` with balance 100 in an empty store,
then creating `X` again with balance 999. -/
theorem claim_C7_witness :
    (CreateAccount ⟨[], [], []⟩ ⟨"X", 100⟩ ⟨false, false⟩).1 = .ok ⟨"X", 100⟩ ∧
    (CreateAccount (CreateAccount ⟨[], [], []⟩ ⟨"X", 100⟩ ⟨false, false⟩).2 ⟨"X", 999⟩
      ⟨false, false⟩).1 = .error .accountAlreadyExists ∧
    lookupAccount (CreateAccount ⟨[], [], []⟩ ⟨"X", 100⟩ ⟨false, false⟩).2.accounts "X" =
      some 100 :=
  (claim_C7_create_account ⟨[], [], []⟩ ⟨"X", 100⟩ ⟨"X", 999⟩ ⟨false, false⟩ ⟨false, false⟩
    rfl).2.2.2 (by decide) rfl rfl (by decide)

/-- Claim C8: `GetAccount` rejects an empty id with `InvalidAccountID`,
a missing id with `NotFound`, and otherwise returns the stored account
with its id and current balance. -/
theorem claim_C8_get_account (st : DBState) (id : String) :
    (id = "" → GetAccount st id = .error .invalidAccountID) ∧
    (id ≠ "" → lookupAccount st.accounts id = none → GetAccount st id = .error .accountNotFound) ∧
    (∀ b : ℚ, id ≠ "" → lookupAccount st.accounts id = some b → GetAccount st id = .ok ⟨id, b⟩) := by
  refine ⟨fun h1 => ?_, fun h1 h2 => ?_, fun b h1 h2 => ?_⟩
  · simp [GetAccount, h1]
  · simp [GetAccount, h1, h2]
  · simp [GetAccount, h1, h2]

/-- Witness for C8: the three branches evaluated on a one-account store. -/
theorem claim_C8_witness :
    GetAccount ⟨[("acc001", (750 : ℚ))], [], []⟩ "" = .error .invalidAccountID ∧
    GetAccount ⟨[("acc001", (750 : ℚ))], [], []⟩ "missing" = .error .accountNotFound ∧
    GetAccount ⟨[("acc001", (750 : ℚ))], [], []⟩ "acc001" = .ok ⟨"acc001", 750⟩ :=
  ⟨(claim_C8_get_account ⟨[("acc001", 750)], [], []⟩ "").1 rfl,
   (claim_C8_get_account ⟨[("acc001", 750)], [], []⟩ "missing").2.1 (by decide)
     (by simp [lookupAccount]),
   (claim_C8_get_account ⟨[("acc001", 750)], [], []⟩ "acc001").2.2 750 (by decide)
     (by simp [lookupAccount])⟩

/-- Claim C9: the balance check is strict. When the amount equals the
source balance exactly, the transfer succeeds and the source balance
afterwards is exactly 0. -/
theorem claim_C9_equal_amount_succeeds
    {st : DBState} {req : CreateTransactionRequest} {genId : String} {s d : ℚ}
    (hv : validateTransferRequest req = none)
    (hs : lookupAccount st.accounts req.sourceAccountID = some s)
    (hd : lookupAccount st.accounts req.destinationAccountID = some d)
    (heq : req.amount = s) :
    (Transfer st req genId noFaults).result =
      .ok ⟨genId, req.sourceAccountID, req.destinationAccountID, req.amount⟩ ∧
    lookupAccount (Transfer st req genId noFaults).state.accounts req.sourceAccountID =
      some 0 := by
  have hne : req.sourceAccountID ≠ req.destinationAccountID :=
    (validateTransferRequest_eq_none.mp hv).2.2.1
  have hlt : ¬ s < req.amount := by rw [heq]; exact lt_irrefl s
  unfold Transfer
  rw [hv]
  simp only [noFaults, hs, hd, hlt]
  simp only [Bool.false_eq_true, if_false]
  constructor
  · trivial
  · rw [lookupAccount_updateBalance_ne _ _ _ _ hne, lookupAccount_updateBalance_self, hs]
    simp [heq]

/-- Witness for C9: transferring the full balance 100 of `acc001`. -/
theorem claim_C9_witness :
    (Transfer ⟨[("acc001", (100 : ℚ)), ("acc002", 50)], [], []⟩
      ⟨"acc001", "acc002", 100⟩ "t9" noFaults).result =
      .ok ⟨"t9", "acc001", "acc002", 100⟩ ∧
    lookupAccount (Transfer ⟨[("acc001", (100 : ℚ)), ("acc002", 50)], [], []⟩
      ⟨"acc001", "acc002", 100⟩ "t9" noFaults).state.accounts "acc001" = some 0 :=
  claim_C9_equal_amount_succeeds (d := 50) (by decide)
    (by simp [lookupAccount]) (by simp [lookupAccount]) rfl

/-- Claim C10: the pre-validation checks run in a fixed order — empty
source id, empty destination id, equal ids, non-positive amount — and
the first violated check determines the single returned error. -/
theorem claim_C10_validation_precedence (req : CreateTransactionRequest) :
    (req.sourceAccountID = "" →
      validateTransferRequest req =
        some (.validationError "source_account_id" "must be non-empty")) ∧
    (req.sourceAccountID ≠ "" → req.destinationAccountID = "" →
      validateTransferRequest req =
        some (.validationError "destination_account_id" "must be non-empty")) ∧
    (req.sourceAccountID ≠ "" → req.destinationAccountID ≠ "" →
      req.sourceAccountID = req.destinationAccountID →
      validateTransferRequest req = some .sameAccount) ∧
    (req.sourceAccountID ≠ "" → req.destinationAccountID ≠ "" →
      req.sourceAccountID ≠ req.destinationAccountID → req.amount ≤ 0 →
      validateTransferRequest req = some .invalidAmount) := by
  refine ⟨fun h1 => ?_, fun h1 h2 => ?_, fun h1 h2 h3 => ?_, fun h1 h2 h3 h4 => ?_⟩
  · simp [validateTransferRequest, h1]
  · simp [validateTransferRequest, h1, h2]
  · simp [validateTransferRequest, h1, h2, h3]
  · simp [validateTransferRequest, h1, h2, h3, h4]

/-- Witness for C10: both identifiers empty fails on the source id, and
equal non-empty identifiers with a non-positive amount fail with
`SameAccount` rather than `InvalidAmount`. -/
theorem claim_C10_witness :
    validateTransferRequest ⟨"", "", 5⟩ =
      some (.validationError "source_account_id" "must be non-empty") ∧
    validateTransferRequest ⟨"acc001", "acc001", -5⟩ = some .sameAccount :=
  ⟨(claim_C10_validation_precedence ⟨"", "", 5⟩).1 rfl,
   (claim_C10_validation_precedence ⟨"acc001", "acc001", -5⟩).2.2.1
     (by decide) (by decide) rfl⟩

end InternalTransfers
